import Mathlib

/-!
Shallow embedding of the history-data vendor adapters in
vnpy/trader/rqdata.py (classes RqdataClient, JqdataClient, VtDataClient).

Modelling conventions:
* Python strings are Lean Strings; per-character tests use the character
  list (String.data).  Python str.isdigit and str.upper are modelled by
  Char.isDigit and character-wise Char.toUpper (they agree on the ASCII instrument
  symbols this module handles).
* datetimes are modelled by a record carrying a total-order key measured
  in minutes together with the calendar fields the code reads
  (year, month, day); timedeltas are Ints in minutes
  (timedelta(minutes=1) = 1, timedelta(hours=1) = 60, timedelta(1) = 1440).
* Remote vendor SDK calls are oracles passed in as function arguments;
  a returned none models the SDK raising a caught error (or a None
  DataFrame, where the code checks for that).
* Functions that can raise an uncaught Python exception on some inputs
  return Option/Except, with none / .error () standing for the raised
  exception (NameError/UnboundLocalError/IndexError/TypeError as noted
  at each site).
* Row price fields pass through the adapters unchanged, so their carrier
  type is irrelevant to every property proved here; Int is used.
-/

namespace VnpyRqdata

/-- Python str.upper, modelled character-wise (ASCII; agrees with CPython
on the instrument symbols handled here). -/
def pyUpper (s : String) : String :=
  String.mk (s.data.map Char.toUpper)

/-- The exchange enumeration members that rqdata.py names
(a subset of the external contract vnpy.trader.constant.Exchange). -/
inductive Exchange where
  | CFFEX
  | SHFE
  | CZCE
  | DCE
  | INE
  | SSE
  | SZSE
  | SGE
deriving DecidableEq

/-- Exchange.value strings of vnpy.trader.constant.Exchange. -/
def Exchange.value : Exchange → String
  | .CFFEX => "CFFEX"
  | .SHFE => "SHFE"
  | .CZCE => "CZCE"
  | .DCE => "DCE"
  | .INE => "INE"
  | .SSE => "SSE"
  | .SZSE => "SZSE"
  | .SGE => "SGE"

/-- The bar-interval enumeration (external contract
vnpy.trader.constant.Interval). -/
inductive Interval where
  | minute
  | hour
  | daily
  | weekly
  | tick
deriving DecidableEq

/-- INTERVAL_VT2RQ: vendor interval codes for RQData (dict .get, absent keys
give none). -/
def INTERVAL_VT2RQ : Interval → Option String
  | .minute => some "1m"
  | .hour => some "60m"
  | .daily => some "1d"
  | _ => none

/-- INTERVAL_ADJUSTMENT_MAP: per-interval timestamp adjustment, in minutes
(timedelta(minutes=1), timedelta(hours=1), timedelta(), timedelta()).
The Python dict has no entry for Interval.TICK; indexing it with TICK would
raise KeyError, modelled by none. -/
def INTERVAL_ADJUSTMENT_MAP : Interval → Option Int
  | .minute => some 1
  | .hour => some 60
  | .daily => some 0
  | .weekly => some 0
  | .tick => none

/-- INTERVAL_VT2JQ: vendor interval codes for JQData. -/
def INTERVAL_VT2JQ : Interval → Option String
  | .minute => some "1m"
  | .hour => some "60m"
  | .daily => some "1d"
  | .weekly => some "1w"
  | .tick => none

/-- EX_VT2JQ_DICT: exchange market codes for JQData. -/
def EX_VT2JQ_DICT : Exchange → Option String
  | .CFFEX => some "CCFX"
  | .SHFE => some "XSGE"
  | .CZCE => some "XZCE"
  | .DCE => some "XDCE"
  | .INE => some "XINE"
  | .SSE => some "XSHG"
  | .SZSE => some "XSHE"
  | .SGE => some "XSGE"

/-- The Python scan
  for count, word in enumerate(symbol):
      if word.isdigit(): break
yields the index of the first digit character, or the last index when no
character is a digit; on the empty string the loop never runs and the loop
variable stays unbound (none models the subsequent NameError). -/
def firstDigitScan : List Char → Option Nat
  | [] => none
  | [_] => some 0
  | c :: c2 :: rest =>
    if c.isDigit then some 0
    else (firstDigitScan (c2 :: rest)).map (fun i => i + 1)

/-- Python str.isdigit on a whole string: nonempty and all digits. -/
def pyIsdigitList (l : List Char) : Bool :=
  !l.isEmpty && l.all Char.isDigit

/-- Python str.isdigit lifted to String. -/
def pyIsdigitStr (s : String) : Bool :=
  pyIsdigitList s.data

/-- RqdataClient.to_rq_symbol.  Returns none where the Python code raises:
on an empty symbol at a futures/options exchange (NameError: the loop
variable count is unbound), and on an options-shaped symbol at INE
(UnboundLocalError: rq_symbol is never assigned). -/
def to_rq_symbol (symbol : String) (exchange : Exchange) : Option String :=
  -- Equity
  if exchange = .SSE ∨ exchange = .SZSE then
    if exchange = .SSE then some (symbol ++ ".XSHG")
    else some (symbol ++ ".XSHE")
  -- Futures and Options
  else if exchange = .SHFE ∨ exchange = .CFFEX ∨ exchange = .DCE ∨
      exchange = .CZCE ∨ exchange = .INE then
    match firstDigitScan symbol.data with
    | none => none
    | some count =>
      let product := symbol.data.take count
      let time_str := symbol.data.drop count
      -- Futures
      if pyIsdigitList time_str then
        if exchange ≠ .CZCE then some (pyUpper symbol)
        -- Check for index symbol
        else if time_str = "88".data ∨ time_str = "888".data ∨
            time_str = "99".data then
          some symbol
        else
          let yc := symbol.data.getD count ' '   -- count < length always holds here
          let month := symbol.data.drop (count + 1)
          let year := if yc = '9' then ['1', yc] else ['2', yc]
          some (pyUpper (String.mk (product ++ year ++ month)))
      -- Options
      else
        if exchange = .CFFEX ∨ exchange = .DCE ∨ exchange = .SHFE then
          some (pyUpper (String.mk (symbol.data.filter (fun c => c != '-'))))
        else if exchange = .CZCE then
          let yc := symbol.data.getD count ' '
          let suffix := symbol.data.drop (count + 1)
          let year := if yc = '9' then ['1', yc] else ['2', yc]
          some (pyUpper (String.mk (product ++ year ++ suffix)))
        else none
  else
    some (symbol ++ "." ++ exchange.value)

/-- The tuple of index/continuous-contract suffixes recognised by
JqdataClient.to_jq_symbol. -/
def JQ_INDEX_SUFFIXES : List (List Char) :=
  ["88".data, "888".data, "889".data, "8888".data,
   "99".data, "999".data, "9999".data]

/-- JqdataClient.to_jq_symbol.  The loop index is pre-initialised to 0, so
the scan fallback is 0 on the empty string; none models the IndexError the
code raises on an empty symbol at CZCE (symbol[idx] out of range). -/
def to_jq_symbol (symbol : String) (exchange : Exchange) : Option String :=
  let jq_exchange := (EX_VT2JQ_DICT exchange).getD exchange.value
  -- Equity: early return, note no .upper() on this path
  if exchange = .SSE ∨ exchange = .SZSE then
    some (symbol ++ "." ++ jq_exchange)
  else
    let idx := (firstDigitScan symbol.data).getD 0
    let product := symbol.data.take idx
    let time_str := symbol.data.drop idx
    if time_str ∈ JQ_INDEX_SUFFIXES then
      -- Index symbol
      let token := if time_str.headD ' ' = '8' then "8888." else "9999."
      some (pyUpper (String.mk (product ++ token.data ++ jq_exchange.data)))
    else if exchange = .CZCE then
      match symbol.data.get? idx with
      | none => none
      | some yc =>
        let month := symbol.data.drop (idx + 1)
        let year := if yc = '9' then ['1', yc] else ['2', yc]
        some (pyUpper (String.mk
          (product ++ year ++ month ++ ('.' :: jq_exchange.data))))
    else
      some (pyUpper (symbol ++ "." ++ jq_exchange))

/-- The mutable state of a vendor client instance (fields of both
RqdataClient and JqdataClient: username, password, inited, symbols).
The symbol universe downloaded at init is a list of strings; none models
the initial Python None. -/
structure ClientState where
  username : String
  password : String
  inited : Bool
  symbols : Option (List String)
deriving DecidableEq

/-- Shared body of RqdataClient.init and JqdataClient.init, whose code is
line-for-line identical apart from the vendor SDK calls inside the try
block.  The auth oracle bundles the remote authentication plus the
instrument download: none models a caught exception (RuntimeError /
AuthenticationFailed for RQData, RuntimeError for JQData), some syms a
successful download of the symbol universe.  Result components:
(returned bool, state after the call, whether the remote SDK was invoked). -/
def vendorInit (st : ClientState) (username password : String)
    (auth : String → String → Option (List String)) :
    Bool × ClientState × Bool :=
  if st.inited then (true, st, false)
  else
    let st1 := if username ≠ "" ∧ password ≠ "" then
        { st with username := username, password := password }
      else st
    if st1.username = "" ∨ st1.password = "" then (false, st1, false)
    else
      match auth st1.username st1.password with
      | none => (false, st1, true)
      | some syms =>
        (true, { st1 with symbols := some syms, inited := true }, true)

/-- Python datetime: a total-order key in minutes plus the calendar fields
the code reads.  Comparisons are modelled on the key. -/
structure PyDatetime where
  key : Int
  year : Int
  month : Int
  day : Int
deriving DecidableEq

/-- vnpy.trader.object.HistoryRequest (external contract): the fields
query_history reads. -/
structure HistoryRequest where
  symbol : String
  exchange : Exchange
  interval : Interval
  start : PyDatetime
  end_ : PyDatetime
deriving DecidableEq

/-- One row of the DataFrame a vendor range query returns: the index
timestamp (row.name, in minutes) plus the field columns.  open_interest is
none when that column is absent (it was not requested), mirroring
row.get with a default. -/
structure VendorRow where
  ts : Int
  open_ : Int
  high : Int
  low : Int
  close : Int
  volume : Int
  open_interest : Option Int
deriving DecidableEq

/-- vnpy.trader.object.BarData (external contract): the fields the
adapters populate. -/
structure BarData where
  symbol : String
  exchange : Exchange
  interval : Interval
  datetime : Int
  open_price : Int
  high_price : Int
  low_price : Int
  close_price : Int
  volume : Int
  open_interest : Int
  gateway_name : String
deriving DecidableEq

/-- The arguments of the rqdata_get_price remote call issued by
RqdataClient.query_history. -/
structure RqCall where
  order_book_id : String
  frequency : String
  fields : List String
  start_key : Int
  end_key : Int
  adjust_type : String
deriving DecidableEq

/-- The remote call issued by JqdataClient.query_history: jq.get_price for
non-weekly intervals, jq.get_bars for the weekly interval. -/
inductive JqCall where
  | getPrice (security : String) (frequency : String) (fields : List String)
      (start_key : Int) (end_key : Int) (skip_paused : Bool)
  | getBars (security : String) (count : Int) (unit : String)
      (fields : List String) (end_key : Int)
deriving DecidableEq

/-- The fields argument of either JQData remote call. -/
def JqCall.fields : JqCall → List String
  | .getPrice _ _ f _ _ _ => f
  | .getBars _ _ _ f _ => f

/-- The field list both query_history bodies build: OHLCV, plus
open_interest only when the symbol is not purely numeric. -/
def queryFields (symbol : String) : List String :=
  ["open", "high", "low", "close", "volume"] ++
    (if pyIsdigitStr symbol then [] else ["open_interest"])

/-- The BarData construction both query_history bodies perform on each
DataFrame row: request fields pass through, the timestamp is the row
index minus the per-interval adjustment, open interest defaults to 0 when
the column is absent. -/
def rowToBar (req : HistoryRequest) (gateway : String) (adjustment : Int)
    (row : VendorRow) : BarData :=
  { symbol := req.symbol
    exchange := req.exchange
    interval := req.interval
    datetime := row.ts - adjustment
    open_price := row.open_
    high_price := row.high
    low_price := row.low
    close_price := row.close
    volume := row.volume
    open_interest := row.open_interest.getD 0
    gateway_name := gateway }

/-- RqdataClient.query_history.  The get_price oracle models
rqdata_get_price; none models a None DataFrame (the code then returns the
empty bar list).  Result: .ok (returned value, remote call issued if any);
.error () models an uncaught exception inside symbol translation. -/
def rqQueryHistory (st : ClientState) (req : HistoryRequest)
    (get_price : RqCall → Option (List VendorRow)) :
    Except Unit (Option (List BarData) × Option RqCall) :=
  match st.symbols with
  | none => .ok (none, none)
  | some syms =>
    match to_rq_symbol req.symbol req.exchange with
    | none => .error ()
    | some rq_symbol =>
      if rq_symbol ∉ syms then .ok (none, none)
      else
        match INTERVAL_VT2RQ req.interval with
        | none => .ok (none, none)
        | some rq_interval =>
          -- Python: if not rq_interval (the dict values are never empty)
          if rq_interval = "" then .ok (none, none)
          else
            match INTERVAL_ADJUSTMENT_MAP req.interval with
            | none => .error ()   -- KeyError; unreachable past the guard
            | some adjustment =>
              let call : RqCall :=
                { order_book_id := rq_symbol
                  frequency := rq_interval
                  fields := queryFields req.symbol
                  start_key := req.start.key
                  end_key := req.end_.key + 1440   -- end += timedelta(1)
                  adjust_type := "none" }
              let rows := (get_price call).getD []
              .ok (some (rows.map (rowToBar req "RQ" adjustment)), some call)

/-- JqdataClient.query_history.  now is the datetime.now(CHINA_TZ) value
read inside the body; get_data models both jq.get_price and jq.get_bars.
.error () models an uncaught exception: IndexError inside translation,
TypeError from the membership test when the symbol cache is still None,
or AttributeError from df.set_index when jq.get_bars returns None. -/
def jqQueryHistory (st : ClientState) (req : HistoryRequest)
    (now : PyDatetime) (get_data : JqCall → Option (List VendorRow)) :
    Except Unit (Option (List BarData) × Option JqCall) :=
  match to_jq_symbol req.symbol req.exchange with
  | none => .error ()
  | some jq_symbol =>
    match st.symbols with
    | none => .error ()   -- jq_symbol not in None raises TypeError
    | some syms =>
      if jq_symbol ∉ syms then .ok (none, none)
      else
        match INTERVAL_VT2JQ req.interval with
        | none => .ok (none, none)
        | some jq_interval =>
          if jq_interval = "" then .ok (none, none)
          else
            match INTERVAL_ADJUSTMENT_MAP req.interval with
            | none => .error ()   -- KeyError; unreachable past the guard
            | some adjustment =>
              let end2 :=
                if req.end_.key ≥ now.key ∨
                    (req.end_.year = now.year ∧ req.end_.month = now.month ∧
                      req.end_.day = now.day) then now
                else req.end_
              if jq_interval ≠ "1w" then
                let call : JqCall :=
                  .getPrice jq_symbol jq_interval (queryFields req.symbol)
                    req.start.key end2.key true
                match get_data call with
                | none => .ok (some [], some call)   -- if df is None: return []
                | some rows =>
                  .ok (some (rows.map (rowToBar req "JQ" adjustment)), some call)
              else
                -- int((end - start).days * 5 / 7) + 1, with CPython float
                -- division modelled as exact division truncated toward zero
                let days := Int.fdiv (end2.key - req.start.key) 1440
                let cnt := Int.tdiv (days * 5) 7 + 1
                let call : JqCall :=
                  .getBars jq_symbol cnt jq_interval
                    (queryFields req.symbol ++ ["date"]) end2.key
                match get_data call with
                | none => .error ()   -- df.set_index on None raises
                | some rows =>
                  .ok (some (rows.map (rowToBar req "JQ" adjustment)), some call)

/-- Which client class VtDataClient.__init__ instantiates. -/
inductive ClientChoice where
  | rq
  | jq
deriving DecidableEq

/-- VtDataClient.__init__: RqdataClient() if (u and u != '') and
(p and p != '') else JqdataClient(), where u and p are the configured
rqdata username and password strings.  For a str value, u and u != ''
is just u ≠ '' (truthiness and the explicit comparison coincide). -/
def vtSelect (rq_username rq_password : String) : ClientChoice :=
  if rq_username ≠ "" ∧ rq_password ≠ "" then .rq else .jq

/-- Unfolding equation of firstDigitScan on a list with at least two
elements. -/
theorem firstDigitScan_cons_cons (c c2 : Char) (l : List Char) :
    firstDigitScan (c :: c2 :: l) =
      if c.isDigit then some 0
      else (firstDigitScan (c2 :: l)).map (fun i => i + 1) := rfl

/-- The Python first-digit scan on a digit-free product followed by a
suffix that starts with a digit stops exactly at the product's length. -/
theorem firstDigitScan_append (p : List Char) (d : Char) (rest : List Char)
    (hp : ∀ c ∈ p, c.isDigit = false) (hd : d.isDigit = true) :
    firstDigitScan (p ++ d :: rest) = some p.length := by
  induction p with
  | nil =>
    cases rest with
    | nil => rfl
    | cons r rs => simp [firstDigitScan_cons_cons, hd]
  | cons c p ih =>
    have hc : c.isDigit = false := hp c (by simp)
    have hrec : firstDigitScan (p ++ d :: rest) = some p.length :=
      ih (fun x hx => hp x (by simp [hx]))
    cases hpp : p ++ d :: rest with
    | nil => simp at hpp
    | cons e l2 =>
      rw [List.cons_append, hpp, firstDigitScan_cons_cons, hc, ← hpp, hrec]
      simp

/-- A nonempty all-digit character list satisfies the Python isdigit
test. -/
theorem pyIsdigitList_of_digits (s : List Char) (hs : s ≠ [])
    (hsd : ∀ c ∈ s, c.isDigit = true) : pyIsdigitList s = true := by
  cases s with
  | nil => exact absurd rfl hs
  | cons d s' =>
    simp only [pyIsdigitList, List.isEmpty_cons, Bool.not_false,
      Bool.true_and, List.all_eq_true]
    intro c hc
    exact hsd c hc

/-- Indexing a product/suffix concatenation at the product's length hits
the first suffix character. -/
theorem getD_append_length (p : List Char) (d : Char) (s' : List Char) :
    (p ++ d :: s').getD p.length ' ' = d := by
  induction p with
  | nil => rfl
  | cons c p ih => simpa using ih

/-- Dropping one more than the product's length removes the product and
the first suffix character. -/
theorem drop_append_length_succ (p : List Char) (d : Char) (s' : List Char) :
    (p ++ d :: s').drop (p.length + 1) = s' := by
  induction p with
  | nil => rfl
  | cons c p ih => exact ih

/-- Evaluation of RqdataClient.to_rq_symbol on a CZCE futures symbol:
digit-free product followed by an all-digit suffix.  The index suffixes
88, 888, 99 pass through unchanged; any other suffix has its leading year
digit prefixed with 1 (if it is 9) or 2 (otherwise). -/
theorem to_rq_symbol_czce_futures (p : List Char) (d : Char) (s' : List Char)
    (hp : ∀ c ∈ p, c.isDigit = false) (hd : d.isDigit = true)
    (hsd : ∀ c ∈ s', c.isDigit = true) :
    to_rq_symbol (String.mk (p ++ d :: s')) Exchange.CZCE =
      if d :: s' = "88".data ∨ d :: s' = "888".data ∨ d :: s' = "99".data then
        some (String.mk (p ++ d :: s'))
      else
        some (pyUpper (String.mk
          (p ++ (if d = '9' then '1' else '2') :: d :: s'))) := by
  have hscan : firstDigitScan (String.mk (p ++ d :: s')).data = some p.length :=
    firstDigitScan_append p d s' hp hd
  have hdigits : pyIsdigitList ((String.mk (p ++ d :: s')).data.drop p.length)
      = true := by
    rw [show (String.mk (p ++ d :: s')).data = p ++ d :: s' from rfl,
      List.drop_left]
    exact pyIsdigitList_of_digits (d :: s') (by simp)
      (by intro c hc; rcases List.mem_cons.mp hc with h | h
          · exact h ▸ hd
          · exact hsd c h)
  simp only [to_rq_symbol, hscan, hdigits]
  rw [List.take_left, List.drop_left, getD_append_length,
    drop_append_length_succ]
  by_cases h9 : d = '9' <;> simp [h9]

/-- Looking up a product/suffix concatenation at the product's length hits
the first suffix character. -/
theorem get?_append_length (p : List Char) (d : Char) (s' : List Char) :
    (p ++ d :: s').get? p.length = some d := by
  induction p with
  | nil => rfl
  | cons c p ih => exact ih

/-- Evaluation of JqdataClient.to_jq_symbol on a CZCE symbol made of a
digit-free product and a suffix starting with a digit: index suffixes map
to the fixed 8888/9999 token, anything else gets the year-digit prefix. -/
theorem to_jq_symbol_czce (p : List Char) (d : Char) (s' : List Char)
    (hp : ∀ c ∈ p, c.isDigit = false) (hd : d.isDigit = true) :
    to_jq_symbol (String.mk (p ++ d :: s')) Exchange.CZCE =
      if d :: s' ∈ JQ_INDEX_SUFFIXES then
        some (pyUpper (String.mk
          (p ++ (if d = '8' then "8888." else "9999.").data ++ "XZCE".data)))
      else
        some (pyUpper (String.mk
          (p ++ ((if d = '9' then '1' else '2') :: d :: s') ++
            ('.' :: "XZCE".data)))) := by
  have hscan : firstDigitScan (String.mk (p ++ d :: s')).data = some p.length :=
    firstDigitScan_append p d s' hp hd
  simp only [to_jq_symbol, hscan, Option.getD_some]
  rw [List.take_left, List.drop_left, get?_append_length,
    drop_append_length_succ]
  by_cases h8 : d = '8'
  · subst h8
    simp [EX_VT2JQ_DICT]
  · by_cases h9 : d = '9' <;> simp [h8, h9, EX_VT2JQ_DICT]

/-- Inversion of a successful RqdataClient.query_history run that issued a
remote call: the guards passed, and the returned bars are the row-wise
image of the vendor result under rowToBar. -/
theorem rqQueryHistory_ok_shape (st : ClientState) (req : HistoryRequest)
    (get_price : RqCall → Option (List VendorRow))
    (bars : List BarData) (call : RqCall)
    (h : rqQueryHistory st req get_price = .ok (some bars, some call)) :
    ∃ adj, INTERVAL_ADJUSTMENT_MAP req.interval = some adj ∧
      bars = ((get_price call).getD []).map (rowToBar req "RQ" adj) ∧
      call.fields = queryFields req.symbol := by
  rcases hsym : st.symbols with _ | syms
  · simp [rqQueryHistory, hsym] at h
  rcases htr : to_rq_symbol req.symbol req.exchange with _ | rqs
  · simp [rqQueryHistory, hsym, htr] at h
  by_cases hmem : rqs ∈ syms
  case neg => simp [rqQueryHistory, hsym, htr, hmem] at h
  rcases hint : INTERVAL_VT2RQ req.interval with _ | freq
  · simp [rqQueryHistory, hsym, htr, hmem, hint] at h
  by_cases hfe : freq = ""
  · simp [rqQueryHistory, hsym, htr, hmem, hint, hfe] at h
  rcases hadj : INTERVAL_ADJUSTMENT_MAP req.interval with _ | adj
  · simp [rqQueryHistory, hsym, htr, hmem, hint, hfe, hadj] at h
  simp [rqQueryHistory, hsym, htr, hmem, hint, hfe, hadj] at h
  obtain ⟨h1, h2⟩ := h
  subst h2
  exact ⟨adj, rfl, h1.symm, rfl⟩

/-- Inversion of a successful JqdataClient.query_history run that issued a
remote call: the adjustment was defined, the bars are the row-wise image
of the vendor result, and the requested field list is the common one,
possibly extended with the date column on the weekly path. -/
theorem jqQueryHistory_ok_shape (st : ClientState) (req : HistoryRequest)
    (now : PyDatetime) (get_data : JqCall → Option (List VendorRow))
    (bars : List BarData) (call : JqCall)
    (h : jqQueryHistory st req now get_data = .ok (some bars, some call)) :
    ∃ adj, INTERVAL_ADJUSTMENT_MAP req.interval = some adj ∧
      bars = ((get_data call).getD []).map (rowToBar req "JQ" adj) ∧
      (call.fields = queryFields req.symbol ∨
        call.fields = queryFields req.symbol ++ ["date"]) := by
  rcases htr : to_jq_symbol req.symbol req.exchange with _ | jqs
  · simp [jqQueryHistory, htr] at h
  rcases hsym : st.symbols with _ | syms
  · simp [jqQueryHistory, htr, hsym] at h
  by_cases hmem : jqs ∈ syms
  case neg => simp [jqQueryHistory, htr, hsym, hmem] at h
  rcases hint : INTERVAL_VT2JQ req.interval with _ | freq
  · simp [jqQueryHistory, htr, hsym, hmem, hint] at h
  by_cases hfe : freq = ""
  · simp [jqQueryHistory, htr, hsym, hmem, hint, hfe] at h
  rcases hadj : INTERVAL_ADJUSTMENT_MAP req.interval with _ | adj
  · simp [jqQueryHistory, htr, hsym, hmem, hint, hfe, hadj] at h
  simp only [jqQueryHistory, htr, hsym, hmem, hint, hfe, hadj,
    if_neg, if_pos, if_true, if_false] at h
  simp [hmem, hfe] at h
  split at h
  · -- weekly path: jq.get_bars
    split at h
    · simp at h
    · simp at h
      obtain ⟨h1, h2⟩ := h
      subst h2
      refine ⟨adj, rfl, ?_, Or.inr rfl⟩
      rename_i rows hgd
      simp [hgd, h1.symm]
  · -- non-weekly path: jq.get_price
    split at h
    · simp at h
      obtain ⟨h1, h2⟩ := h
      subst h2
      refine ⟨adj, rfl, ?_, Or.inl rfl⟩
      rename_i hgd
      simp [hgd, h1]
    · simp at h
      obtain ⟨h1, h2⟩ := h
      subst h2
      refine ⟨adj, rfl, ?_, Or.inl rfl⟩
      rename_i rows hgd
      simp [hgd, h1.symm]

/-- Claim C1 counterexample: the CZCE futures suffix 9999 does NOT pass
through RqdataClient.to_rq_symbol unchanged; it gets the year-digit
treatment and becomes TA19999. -/
theorem claim1_counterexample :
    to_rq_symbol "TA9999" Exchange.CZCE = some "TA19999" ∧
    to_rq_symbol "TA9999" Exchange.CZCE ≠ some "TA9999" := by
  constructor
  · decide
  · decide

/-- Claim C1 (amended): for a CZCE futures symbol with digit-free product
and numeric suffix, RqdataClient.to_rq_symbol returns the symbol unchanged
exactly for the suffixes 88, 888 and 99, while the suffix 9999 instead
receives the year-digit prefix (product ++ 19999); JqdataClient.to_jq_symbol
maps every one of 88, 888, 99, 9999 to the fixed index token: the product
followed by 8888 (suffixes starting with 8) or 9999 (suffixes starting
with 9) plus the CZCE market code. -/
theorem claim1_index_suffixes (p : List Char)
    (hp : ∀ c ∈ p, c.isDigit = false) :
    (∀ s : String, s ∈ (["88", "888", "99"] : List String) →
      to_rq_symbol (String.mk (p ++ s.data)) Exchange.CZCE =
        some (String.mk (p ++ s.data))) ∧
    to_rq_symbol (String.mk (p ++ "9999".data)) Exchange.CZCE =
      some (pyUpper (String.mk (p ++ "19999".data))) ∧
    (∀ s : String, s ∈ (["88", "888", "99", "9999"] : List String) →
      to_jq_symbol (String.mk (p ++ s.data)) Exchange.CZCE =
        some (pyUpper (String.mk (p ++
          (if s.data.headD ' ' = '8' then "8888." else "9999.").data ++
          "XZCE".data)))) := by
  refine ⟨?_, ?_, ?_⟩
  · intro s hs
    fin_cases hs
    · simpa using to_rq_symbol_czce_futures p '8' ['8'] hp (by decide)
        (by decide)
    · simpa using to_rq_symbol_czce_futures p '8' ['8', '8'] hp (by decide)
        (by decide)
    · simpa using to_rq_symbol_czce_futures p '9' ['9'] hp (by decide)
        (by decide)
  · simpa using to_rq_symbol_czce_futures p '9' ['9', '9', '9'] hp (by decide)
      (by decide)
  · intro s hs
    fin_cases hs
    · simpa [JQ_INDEX_SUFFIXES] using to_jq_symbol_czce p '8' ['8'] hp
        (by decide)
    · simpa [JQ_INDEX_SUFFIXES] using to_jq_symbol_czce p '8' ['8', '8'] hp
        (by decide)
    · simpa [JQ_INDEX_SUFFIXES] using to_jq_symbol_czce p '9' ['9'] hp
        (by decide)
    · simpa [JQ_INDEX_SUFFIXES] using to_jq_symbol_czce p '9' ['9', '9', '9']
        hp (by decide)

/-- Concrete instantiation of claim1_index_suffixes at the product TA. -/
theorem claim1_index_suffixes_witness :
    to_rq_symbol "TA88" Exchange.CZCE = some "TA88" ∧
    to_rq_symbol "TA9999" Exchange.CZCE = some "TA19999" ∧
    to_jq_symbol "TA9999" Exchange.CZCE = some "TA9999.XZCE" :=
  ⟨(claim1_index_suffixes ['T', 'A'] (by decide)).1 "88" (by simp),
   (claim1_index_suffixes ['T', 'A'] (by decide)).2.1,
   (claim1_index_suffixes ['T', 'A'] (by decide)).2.2 "9999" (by simp)⟩

/-- Claim C2: a CZCE futures symbol made of a digit-free product and a
three-digit suffix other than the index suffix 888 is translated by
prefixing the leading year digit with 1 when that digit is 9 and with 2
otherwise; in particular TA905 becomes TA1905 and TA105 becomes TA2105. -/
theorem claim2_year_digit (p : List Char) (y m1 m2 : Char)
    (hp : ∀ c ∈ p, c.isDigit = false)
    (hy : y.isDigit = true) (hm1 : m1.isDigit = true) (hm2 : m2.isDigit = true)
    (hidx : ¬([y, m1, m2] = "888".data)) :
    to_rq_symbol (String.mk (p ++ [y, m1, m2])) Exchange.CZCE =
      some (pyUpper (String.mk
        (p ++ (if y = '9' then '1' else '2') :: [y, m1, m2]))) ∧
    to_rq_symbol "TA905" Exchange.CZCE = some "TA1905" ∧
    to_rq_symbol "TA105" Exchange.CZCE = some "TA2105" := by
  refine ⟨?_, by decide, by decide⟩
  have hdigits : ∀ c ∈ [m1, m2], c.isDigit = true := by
    intro c hc
    simp only [List.mem_cons, List.not_mem_nil, or_false] at hc
    rcases hc with rfl | rfl
    · exact hm1
    · exact hm2
  have h := to_rq_symbol_czce_futures p y [m1, m2] hp hy hdigits
  rw [h, if_neg]
  rintro (hbad | hbad | hbad)
  · simp at hbad
  · exact hidx hbad
  · simp at hbad

/-- Concrete instantiation of claim2_year_digit at TA905. -/
theorem claim2_year_digit_witness :
    to_rq_symbol "TA905" Exchange.CZCE = some "TA1905" :=
  (claim2_year_digit ['T', 'A'] '9' '0' '5' (by decide) (by decide)
    (by decide) (by decide) (by decide)).2.1

/-- Test fixture: an initialised RQData client state whose symbol universe
holds TA1905. -/
def stTA : ClientState :=
  { username := "u", password := "p", inited := true,
    symbols := some ["TA1905"] }

/-- Test fixture: an initialised JQData client state whose symbol universe
holds TA1905.XZCE. -/
def stTAJQ : ClientState :=
  { username := "u", password := "p", inited := true,
    symbols := some ["TA1905.XZCE"] }

/-- Test fixture: a minute-bar request for TA905 on CZCE. -/
def reqTA : HistoryRequest :=
  { symbol := "TA905", exchange := .CZCE, interval := .minute,
    start := ⟨0, 2019, 1, 1⟩, end_ := ⟨1440, 2019, 1, 2⟩ }

/-- Test fixture: one vendor row. -/
def rowTA : VendorRow :=
  { ts := 100, open_ := 1, high := 2, low := 3, close := 4, volume := 5,
    open_interest := some 7 }

/-- Test fixture: a vendor oracle answering every call with one row. -/
def rqOracleTA : RqCall → Option (List VendorRow) := fun _ => some [rowTA]

/-- Test fixture: the JQData vendor oracle. -/
def jqOracleTA : JqCall → Option (List VendorRow) := fun _ => some [rowTA]

/-- Test fixture: the wall-clock now used by the JQData query. -/
def nowTA : PyDatetime := ⟨10000, 2019, 1, 5⟩

/-- The remote call the RQData query issues for reqTA. -/
def callTA : RqCall :=
  { order_book_id := "TA1905", frequency := "1m",
    fields := ["open", "high", "low", "close", "volume", "open_interest"],
    start_key := 0, end_key := 2880, adjust_type := "none" }

/-- The remote call the JQData query issues for reqTA. -/
def callTAJQ : JqCall :=
  .getPrice "TA1905.XZCE" "1m"
    ["open", "high", "low", "close", "volume", "open_interest"] 0 1440 true

/-- The bar the RQData query builds from rowTA. -/
def barTA : BarData :=
  { symbol := "TA905", exchange := .CZCE, interval := .minute, datetime := 99,
    open_price := 1, high_price := 2, low_price := 3, close_price := 4,
    volume := 5, open_interest := 7, gateway_name := "RQ" }

/-- The bar the JQData query builds from rowTA. -/
def barTAJQ : BarData :=
  { symbol := "TA905", exchange := .CZCE, interval := .minute, datetime := 99,
    open_price := 1, high_price := 2, low_price := 3, close_price := 4,
    volume := 5, open_interest := 7, gateway_name := "JQ" }

/-- Concrete evaluation of the RQData query on the fixtures. -/
theorem rq_eval_TA :
    rqQueryHistory stTA reqTA rqOracleTA = .ok (some [barTA], some callTA) :=
  rfl

/-- Concrete evaluation of the JQData query on the fixtures. -/
theorem jq_eval_TA :
    jqQueryHistory stTAJQ reqTA nowTA jqOracleTA =
      .ok (some [barTAJQ], some callTAJQ) :=
  rfl

/-- Claim C3: the per-interval timestamp adjustment is one minute for
minute bars, one hour (60 minutes) for hour bars and zero for daily and
weekly bars, and every bar either query_history returns carries the
matching vendor row's timestamp minus exactly that adjustment. -/
theorem claim3_timestamp_adjustment :
    (INTERVAL_ADJUSTMENT_MAP Interval.minute = some 1 ∧
      INTERVAL_ADJUSTMENT_MAP Interval.hour = some 60 ∧
      INTERVAL_ADJUSTMENT_MAP Interval.daily = some 0 ∧
      INTERVAL_ADJUSTMENT_MAP Interval.weekly = some 0) ∧
    (∀ (st : ClientState) (req : HistoryRequest)
      (get_price : RqCall → Option (List VendorRow))
      (bars : List BarData) (call : RqCall),
      rqQueryHistory st req get_price = .ok (some bars, some call) →
      ∀ (i : Nat) (hb : i < bars.length)
        (hr : i < ((get_price call).getD []).length),
        ∃ adj, INTERVAL_ADJUSTMENT_MAP req.interval = some adj ∧
          (bars.get ⟨i, hb⟩).datetime =
            (((get_price call).getD []).get ⟨i, hr⟩).ts - adj) ∧
    (∀ (st : ClientState) (req : HistoryRequest) (now : PyDatetime)
      (get_data : JqCall → Option (List VendorRow))
      (bars : List BarData) (call : JqCall),
      jqQueryHistory st req now get_data = .ok (some bars, some call) →
      ∀ (i : Nat) (hb : i < bars.length)
        (hr : i < ((get_data call).getD []).length),
        ∃ adj, INTERVAL_ADJUSTMENT_MAP req.interval = some adj ∧
          (bars.get ⟨i, hb⟩).datetime =
            (((get_data call).getD []).get ⟨i, hr⟩).ts - adj) := by
  refine ⟨⟨rfl, rfl, rfl, rfl⟩, ?_, ?_⟩
  · intro st req get_price bars call h i hb hr
    obtain ⟨adj, hadj, hbars, -⟩ :=
      rqQueryHistory_ok_shape st req get_price bars call h
    refine ⟨adj, hadj, ?_⟩
    subst hbars
    simp [rowToBar]
  · intro st req now get_data bars call h i hb hr
    obtain ⟨adj, hadj, hbars, -⟩ :=
      jqQueryHistory_ok_shape st req now get_data bars call h
    refine ⟨adj, hadj, ?_⟩
    subst hbars
    simp [rowToBar]

/-- Concrete instantiation of claim3_timestamp_adjustment: the minute bar
built from the fixture row is stamped 100 - 1 = 99. -/
theorem claim3_timestamp_adjustment_witness :
    ∃ adj, INTERVAL_ADJUSTMENT_MAP reqTA.interval = some adj ∧
      barTA.datetime = rowTA.ts - adj := by
  have h := claim3_timestamp_adjustment.2.1 stTA reqTA rqOracleTA [barTA]
    callTA rq_eval_TA 0 (by decide) (by decide)
  simpa [rqOracleTA] using h

/-- Claim C5: for both clients, a request whose translated symbol is
missing from the cached symbol universe, or whose interval has no vendor
interval code, makes query_history return None without issuing any remote
range query. -/
theorem claim5_unknown_symbol_or_interval :
    (∀ (st : ClientState) (req : HistoryRequest)
      (get_price : RqCall → Option (List VendorRow))
      (syms : List String) (rqs : String),
      st.symbols = some syms →
      to_rq_symbol req.symbol req.exchange = some rqs →
      rqs ∉ syms →
      rqQueryHistory st req get_price = .ok (none, none)) ∧
    (∀ (st : ClientState) (req : HistoryRequest)
      (get_price : RqCall → Option (List VendorRow))
      (syms : List String) (rqs : String),
      st.symbols = some syms →
      to_rq_symbol req.symbol req.exchange = some rqs →
      rqs ∈ syms →
      INTERVAL_VT2RQ req.interval = none →
      rqQueryHistory st req get_price = .ok (none, none)) ∧
    (∀ (st : ClientState) (req : HistoryRequest) (now : PyDatetime)
      (get_data : JqCall → Option (List VendorRow))
      (syms : List String) (jqs : String),
      st.symbols = some syms →
      to_jq_symbol req.symbol req.exchange = some jqs →
      jqs ∉ syms →
      jqQueryHistory st req now get_data = .ok (none, none)) ∧
    (∀ (st : ClientState) (req : HistoryRequest) (now : PyDatetime)
      (get_data : JqCall → Option (List VendorRow))
      (syms : List String) (jqs : String),
      st.symbols = some syms →
      to_jq_symbol req.symbol req.exchange = some jqs →
      jqs ∈ syms →
      INTERVAL_VT2JQ req.interval = none →
      jqQueryHistory st req now get_data = .ok (none, none)) := by
  refine ⟨?_, ?_, ?_, ?_⟩
  · intro st req get_price syms rqs hsym htr hmem
    simp [rqQueryHistory, hsym, htr, hmem]
  · intro st req get_price syms rqs hsym htr hmem hint
    simp [rqQueryHistory, hsym, htr, hmem, hint]
  · intro st req now get_data syms jqs hsym htr hmem
    simp [jqQueryHistory, hsym, htr, hmem]
  · intro st req now get_data syms jqs hsym htr hmem hint
    simp [jqQueryHistory, hsym, htr, hmem, hint]

/-- Concrete instantiation of claim5_unknown_symbol_or_interval: ZZ999
translates to ZZ1999, which the cache does not hold, and a tick-interval
request for a cached symbol is also rejected; both without a remote
call. -/
theorem claim5_unknown_symbol_or_interval_witness :
    rqQueryHistory stTA { reqTA with symbol := "ZZ999" } rqOracleTA =
      .ok (none, none) ∧
    rqQueryHistory stTA { reqTA with interval := Interval.tick } rqOracleTA =
      .ok (none, none) :=
  ⟨claim5_unknown_symbol_or_interval.1 stTA _ rqOracleTA ["TA1905"] "ZZ1999"
      rfl (by decide) (by decide),
   claim5_unknown_symbol_or_interval.2.1 stTA _ rqOracleTA ["TA1905"] "TA1905"
      rfl (by decide) (by decide) rfl⟩

/-- Claim C9 (implicit): every bar either query_history returns carries
the request's own symbol, exchange and interval (never the vendor
translation) and the fixed gateway tag of its client. -/
theorem claim9_bar_identity :
    (∀ (st : ClientState) (req : HistoryRequest)
      (get_price : RqCall → Option (List VendorRow))
      (bars : List BarData) (call : RqCall),
      rqQueryHistory st req get_price = .ok (some bars, some call) →
      ∀ b ∈ bars, b.symbol = req.symbol ∧ b.exchange = req.exchange ∧
        b.interval = req.interval ∧ b.gateway_name = "RQ") ∧
    (∀ (st : ClientState) (req : HistoryRequest) (now : PyDatetime)
      (get_data : JqCall → Option (List VendorRow))
      (bars : List BarData) (call : JqCall),
      jqQueryHistory st req now get_data = .ok (some bars, some call) →
      ∀ b ∈ bars, b.symbol = req.symbol ∧ b.exchange = req.exchange ∧
        b.interval = req.interval ∧ b.gateway_name = "JQ") := by
  constructor
  · intro st req get_price bars call h b hb
    obtain ⟨adj, -, hbars, -⟩ :=
      rqQueryHistory_ok_shape st req get_price bars call h
    subst hbars
    obtain ⟨row, -, rfl⟩ := List.mem_map.mp hb
    exact ⟨rfl, rfl, rfl, rfl⟩
  · intro st req now get_data bars call h b hb
    obtain ⟨adj, -, hbars, -⟩ :=
      jqQueryHistory_ok_shape st req now get_data bars call h
    subst hbars
    obtain ⟨row, -, rfl⟩ := List.mem_map.mp hb
    exact ⟨rfl, rfl, rfl, rfl⟩

/-- Concrete instantiation of claim9_bar_identity on the fixture run. -/
theorem claim9_bar_identity_witness :
    barTA.symbol = reqTA.symbol ∧ barTA.exchange = reqTA.exchange ∧
      barTA.interval = reqTA.interval ∧ barTA.gateway_name = "RQ" :=
  claim9_bar_identity.1 stTA reqTA rqOracleTA [barTA] callTA rq_eval_TA
    barTA (by simp)

/-- Claim C10 (implicit): with the symbol cache still unset,
RqdataClient.query_history returns None at once, making no remote call and
not depending on the request at all, while JqdataClient.query_history has
no such guard: it raises (TypeError from the membership test on None,
modelled by .error) instead of returning. -/
theorem claim10_uninit_guard :
    (∀ (st : ClientState) (req : HistoryRequest)
      (get_price : RqCall → Option (List VendorRow)),
      st.symbols = none →
      rqQueryHistory st req get_price = .ok (none, none)) ∧
    (∀ (st : ClientState) (req : HistoryRequest) (now : PyDatetime)
      (get_data : JqCall → Option (List VendorRow)),
      st.symbols = none →
      jqQueryHistory st req now get_data = .error ()) := by
  constructor
  · intro st req get_price hsym
    simp [rqQueryHistory, hsym]
  · intro st req now get_data hsym
    rcases htr : to_jq_symbol req.symbol req.exchange with _ | jqs <;>
      simp [jqQueryHistory, htr, hsym]

/-- Concrete instantiation of claim10_uninit_guard on an uninitialised
state. -/
theorem claim10_uninit_guard_witness :
    rqQueryHistory { stTA with symbols := none } reqTA rqOracleTA =
      .ok (none, none) ∧
    jqQueryHistory { stTA with symbols := none } reqTA nowTA jqOracleTA =
      .error () :=
  ⟨claim10_uninit_guard.1 _ reqTA rqOracleTA rfl,
   claim10_uninit_guard.2 _ reqTA nowTA jqOracleTA rfl⟩

/-- Claim C4: for both clients (their init bodies are identical), calling
init on a not-yet-initialised instance with an empty stored username or
password, and no non-empty replacement pair passed, returns false, leaves
the state entirely unchanged (inited stays false, the symbol cache stays
as it was, i.e. unset) and never invokes the remote SDK. -/
theorem claim4_init_empty_credentials (st : ClientState)
    (username password : String)
    (auth : String → String → Option (List String))
    (hinited : st.inited = false)
    (hargs : username = "" ∨ password = "")
    (hstored : st.username = "" ∨ st.password = "") :
    vendorInit st username password auth = (false, st, false) := by
  rcases hargs with ha | ha <;> rcases hstored with hs | hs <;>
    simp [vendorInit, hinited, ha, hs]

/-- Concrete instantiation of claim4_init_empty_credentials: a fresh state
with an empty username refuses to initialise. -/
theorem claim4_init_empty_credentials_witness :
    vendorInit
      { username := "", password := "p", inited := false, symbols := none }
      "" "" (fun _ _ => some ["X"]) =
      (false,
        { username := "", password := "p", inited := false, symbols := none },
        false) :=
  claim4_init_empty_credentials _ "" "" _ rfl (Or.inl rfl) (Or.inl rfl)

/-- Claim C6: both query_history bodies request the open_interest column
exactly when the request's symbol is not purely numeric; each bar's open
interest is the row's open_interest column with default 0, so when the
column is absent (as for purely numeric symbols, where it is not
requested) every bar's open interest is 0, and otherwise it is the row's
value. -/
theorem claim6_open_interest :
    (∀ (st : ClientState) (req : HistoryRequest)
      (get_price : RqCall → Option (List VendorRow))
      (bars : List BarData) (call : RqCall),
      rqQueryHistory st req get_price = .ok (some bars, some call) →
      (("open_interest" ∈ call.fields) ↔ pyIsdigitStr req.symbol = false) ∧
      (∀ (i : Nat) (hb : i < bars.length)
        (hr : i < ((get_price call).getD []).length),
        (bars.get ⟨i, hb⟩).open_interest =
          ((((get_price call).getD []).get ⟨i, hr⟩).open_interest).getD 0) ∧
      (pyIsdigitStr req.symbol = true →
        (∀ row ∈ (get_price call).getD [], row.open_interest = none) →
        ∀ b ∈ bars, b.open_interest = 0)) ∧
    (∀ (st : ClientState) (req : HistoryRequest) (now : PyDatetime)
      (get_data : JqCall → Option (List VendorRow))
      (bars : List BarData) (call : JqCall),
      jqQueryHistory st req now get_data = .ok (some bars, some call) →
      (("open_interest" ∈ call.fields) ↔ pyIsdigitStr req.symbol = false) ∧
      (∀ (i : Nat) (hb : i < bars.length)
        (hr : i < ((get_data call).getD []).length),
        (bars.get ⟨i, hb⟩).open_interest =
          ((((get_data call).getD []).get ⟨i, hr⟩).open_interest).getD 0) ∧
      (pyIsdigitStr req.symbol = true →
        (∀ row ∈ (get_data call).getD [], row.open_interest = none) →
        ∀ b ∈ bars, b.open_interest = 0)) := by
  constructor
  · intro st req get_price bars call h
    obtain ⟨adj, hadj, hbars, hfields⟩ :=
      rqQueryHistory_ok_shape st req get_price bars call h
    refine ⟨?_, ?_, ?_⟩
    · rw [hfields]
      by_cases hdig : pyIsdigitStr req.symbol <;> simp [queryFields, hdig]
    · intro i hb hr
      subst hbars
      simp [rowToBar]
    · intro hdig hrows b hb
      subst hbars
      obtain ⟨row, hrow, rfl⟩ := List.mem_map.mp hb
      simp [rowToBar, hrows row hrow]
  · intro st req now get_data bars call h
    obtain ⟨adj, hadj, hbars, hfields⟩ :=
      jqQueryHistory_ok_shape st req now get_data bars call h
    refine ⟨?_, ?_, ?_⟩
    · rcases hfields with hf | hf <;> rw [hf] <;>
        by_cases hdig : pyIsdigitStr req.symbol <;> simp [queryFields, hdig]
    · intro i hb hr
      subst hbars
      simp [rowToBar]
    · intro hdig hrows b hb
      subst hbars
      obtain ⟨row, hrow, rfl⟩ := List.mem_map.mp hb
      simp [rowToBar, hrows row hrow]

/-- Concrete instantiation of claim6_open_interest on the fixture run: the
non-numeric symbol TA905 requests open_interest and the bar carries the
row's value. -/
theorem claim6_open_interest_witness :
    ("open_interest" ∈ callTA.fields) ∧
      barTA.open_interest = rowTA.open_interest.getD 0 := by
  have h := claim6_open_interest.1 stTA reqTA rqOracleTA [barTA] callTA
    rq_eval_TA
  refine ⟨h.1.mpr (by decide), ?_⟩
  have h2 := h.2.1 0 (by decide) (by decide)
  simpa [rqOracleTA] using h2

/-- Claim C7: once a client instance is initialised, a further init call
returns true, changes no field of the state and performs no remote
authentication (both init bodies are identical). -/
theorem claim7_init_idempotent (st : ClientState)
    (username password : String)
    (auth : String → String → Option (List String))
    (h : st.inited = true) :
    vendorInit st username password auth = (true, st, false) := by
  simp [vendorInit, h]

/-- Concrete instantiation of claim7_init_idempotent on the initialised
fixture state. -/
theorem claim7_init_idempotent_witness :
    vendorInit stTA "other" "creds" (fun _ _ => none) = (true, stTA, false) :=
  claim7_init_idempotent stTA "other" "creds" _ rfl

/-- Claim C8: VtDataClient.__init__ instantiates RqdataClient exactly when
both configured rqdata credentials are non-empty, and JqdataClient
otherwise; the choice is a pure function of those two settings, computed
once at construction. -/
theorem claim8_client_selection (u p : String) :
    (vtSelect u p = ClientChoice.rq ↔ (u ≠ "" ∧ p ≠ "")) ∧
    (vtSelect u p = ClientChoice.jq ↔ ¬(u ≠ "" ∧ p ≠ "")) := by
  by_cases h : u ≠ "" ∧ p ≠ "" <;> simp [vtSelect, h]

end VnpyRqdata
